import Mathlib

/-!
Verification of the trip-planner route/POI/itinerary engine.

The definitions below are a shallow embedding of the JavaScript source
(`src/unnamed/part_000`, with `src/app.js` a near-duplicate).  Coordinates
are modelled as rationals; the map/marker layer is outside the embedding,
so a route stop is its latitude, longitude and display name, and a POI
marker keeps the fields the engine reads (budget level, category,
position, opacity).
-/

namespace TripPlanner

/-- A route stop as stored in `state.route.stops`: `{ lat, lon, name }`
(the Leaflet marker handle is presentation-layer state and not modelled). -/
structure Stop where
  lat : ℚ
  lon : ℚ
  name : String
  deriving DecidableEq, Repr

/-- The alphabetic label of the stop at a position:
`String.fromCharCode(65 + index)` in `addStop` / `removeStop` /
`updateStopsList`. -/
def stopLabel (index : Nat) : Char :=
  Char.ofNat (65 + index)

/-- The role string computed for position `index` of a list of `len` stops in
`updateStopsList`:
`index === 0 ? 'start' : index === len - 1 && len > 1 ? 'end' : ''`. -/
def stopRole (index len : Nat) : String :=
  if index = 0 then "start"
  else if index = len - 1 ∧ 1 < len then "end"
  else ""

/-- `addStop(lat, lon, name)`: pushes a new stop at the end of
`state.route.stops`. -/
def addStop (stops : List Stop) (lat lon : ℚ) (name : String) : List Stop :=
  stops ++ [⟨lat, lon, name⟩]

/-- `removeStop(index)`: returns unchanged on
`index < 0 || index >= state.route.stops.length`, otherwise splices the
stop at `index` out of the list. -/
def removeStop (stops : List Stop) (index : Int) : List Stop :=
  if index < 0 ∨ (stops.length : Int) ≤ index then stops
  else stops.eraseIdx index.toNat

/-- `updateStop(index, lat, lon, name)`: `state.route.stops[index]` is
`undefined` exactly when `index` is outside `[0, length)`, and the function
then returns with no effect; otherwise it overwrites the stop's latitude,
longitude and name in place. -/
def updateStop (stops : List Stop) (index : Int) (lat lon : ℚ)
    (name : String) : List Stop :=
  if 0 ≤ index ∧ index < (stops.length : Int) then
    stops.set index.toNat ⟨lat, lon, name⟩
  else stops

theorem removeStop_length (stops : List Stop) (i : Nat) (h : i < stops.length) :
    (removeStop stops (i : Int)).length = stops.length - 1 := by
  have h0 : ¬ ((i : Int) < 0 ∨ (stops.length : Int) ≤ (i : Int)) := by
    push_neg
    exact ⟨Int.natCast_nonneg i, by exact_mod_cast h⟩
  simp only [removeStop, if_neg h0, Int.toNat_natCast]
  exact List.length_eraseIdx_of_lt h

/-- Claim C1: for a stop sequence of `N` appended stops, after any single
`removeStop i` with `0 ≤ i < N` the remaining length is `N - 1`, the
recomputed labels of the remaining stops are exactly the letters
`A..(N-2)` in positional order, the role at index `0` is `start`, and the
role at the last index is `end` whenever more than one stop remains. -/
theorem removeStop_relabels_and_reclassifies
    (stops : List Stop) (i : Nat) (h : i < stops.length) :
    (removeStop stops (i : Int)).length = stops.length - 1 ∧
    (List.range (removeStop stops (i : Int)).length).map stopLabel
      = (List.range (stops.length - 1)).map (fun j => Char.ofNat (65 + j)) ∧
    (0 < (removeStop stops (i : Int)).length →
      stopRole 0 (removeStop stops (i : Int)).length = "start") ∧
    (1 < (removeStop stops (i : Int)).length →
      stopRole ((removeStop stops (i : Int)).length - 1)
        (removeStop stops (i : Int)).length = "end") := by
  have hlen := removeStop_length stops i h
  refine ⟨hlen, ?_, ?_, ?_⟩
  · rw [hlen]
    simp [stopLabel]
  · intro _
    simp [stopRole]
  · intro hgt
    have hne : (removeStop stops (i : Int)).length - 1 ≠ 0 := by omega
    simp [stopRole, hne, hgt]

/-- Witness for C1 at a concrete three-stop sequence with the middle stop
removed. -/
theorem removeStop_relabels_and_reclassifies_witness :
    (1 : Nat) < ([⟨1, 2, "a"⟩, ⟨3, 4, "b"⟩, ⟨5, 6, "c"⟩] : List Stop).length ∧
    ((removeStop [⟨1, 2, "a"⟩, ⟨3, 4, "b"⟩, ⟨5, 6, "c"⟩] (1 : Nat)).length
        = ([⟨1, 2, "a"⟩, ⟨3, 4, "b"⟩, ⟨5, 6, "c"⟩] : List Stop).length - 1 ∧
      (List.range (removeStop [⟨1, 2, "a"⟩, ⟨3, 4, "b"⟩, ⟨5, 6, "c"⟩]
          (1 : Nat)).length).map stopLabel
        = (List.range (([⟨1, 2, "a"⟩, ⟨3, 4, "b"⟩, ⟨5, 6, "c"⟩] : List Stop).length
            - 1)).map (fun j => Char.ofNat (65 + j)) ∧
      (0 < (removeStop [⟨1, 2, "a"⟩, ⟨3, 4, "b"⟩, ⟨5, 6, "c"⟩] (1 : Nat)).length →
        stopRole 0 (removeStop [⟨1, 2, "a"⟩, ⟨3, 4, "b"⟩, ⟨5, 6, "c"⟩]
          (1 : Nat)).length = "start") ∧
      (1 < (removeStop [⟨1, 2, "a"⟩, ⟨3, 4, "b"⟩, ⟨5, 6, "c"⟩] (1 : Nat)).length →
        stopRole ((removeStop [⟨1, 2, "a"⟩, ⟨3, 4, "b"⟩, ⟨5, 6, "c"⟩]
            (1 : Nat)).length - 1)
          (removeStop [⟨1, 2, "a"⟩, ⟨3, 4, "b"⟩, ⟨5, 6, "c"⟩]
            (1 : Nat)).length = "end")) :=
  ⟨by decide,
   removeStop_relabels_and_reclassifies
     [⟨1, 2, "a"⟩, ⟨3, 4, "b"⟩, ⟨5, 6, "c"⟩] 1 (by decide)⟩

/-- Counterexample to claim C3: at the concrete out-of-range index `5` on a
one-stop sequence (and `-1` on the same sequence), both `removeStop` and
`updateStop` simply return the sequence unchanged.  The source functions
return `undefined` in every case and carry no error value, flag or
exception, so no out-of-range condition is reported to the caller: the
operations silently do nothing. -/
theorem removeStop_updateStop_silent_at_invalid_index :
    removeStop [⟨1, 2, "a"⟩] 5 = [⟨1, 2, "a"⟩] ∧
    removeStop [⟨1, 2, "a"⟩] (-1) = [⟨1, 2, "a"⟩] ∧
    updateStop [⟨1, 2, "a"⟩] 5 9 9 "z" = [⟨1, 2, "a"⟩] ∧
    updateStop [⟨1, 2, "a"⟩] (-1) 9 9 "z" = [⟨1, 2, "a"⟩] := by
  refine ⟨?_, ?_, ?_, ?_⟩ <;> decide

/-- Claim C3 as amended: for every index outside `[0, length)`, `updateStop`
and `removeStop` return without signalling any error and leave the stop
sequence unchanged; in particular they never clamp the index to a valid
one. -/
theorem invalid_index_ops_no_clamp
    (stops : List Stop) (index : Int) (lat lon : ℚ) (name : String)
    (h : index < 0 ∨ (stops.length : Int) ≤ index) :
    removeStop stops index = stops ∧
    updateStop stops index lat lon name = stops := by
  constructor
  · simp only [removeStop, if_pos h]
  · have h0 : ¬ (0 ≤ index ∧ index < (stops.length : Int)) := by omega
    simp only [updateStop, if_neg h0]

/-- Witness for the amended claim C3 at index `3` on a two-stop sequence. -/
theorem invalid_index_ops_no_clamp_witness :
    ((3 : Int) < 0 ∨ (([⟨1, 2, "a"⟩, ⟨3, 4, "b"⟩] : List Stop).length : Int) ≤ 3) ∧
    (removeStop [⟨1, 2, "a"⟩, ⟨3, 4, "b"⟩] 3 = [⟨1, 2, "a"⟩, ⟨3, 4, "b"⟩] ∧
     updateStop [⟨1, 2, "a"⟩, ⟨3, 4, "b"⟩] 3 7 8 "c" = [⟨1, 2, "a"⟩, ⟨3, 4, "b"⟩]) :=
  ⟨by decide, invalid_index_ops_no_clamp [⟨1, 2, "a"⟩, ⟨3, 4, "b"⟩] 3 7 8 "c" (by decide)⟩

/-- Claim C9: for every index outside `[0, length)`, `updateStop` and
`removeStop` leave the stop sequence entirely unchanged: the length is the
same, at every position the stored coordinate and name are the same, and
the position-derived label and role of every remaining stop are the same
as before the call. -/
theorem invalid_index_ops_preserve_sequence
    (stops : List Stop) (index : Int) (lat lon : ℚ) (name : String)
    (h : ¬ (0 ≤ index ∧ index < (stops.length : Int))) :
    (removeStop stops index).length = stops.length ∧
    (updateStop stops index lat lon name).length = stops.length ∧
    (∀ j : Nat, (removeStop stops index)[j]? = stops[j]? ∧
      (updateStop stops index lat lon name)[j]? = stops[j]? ∧
      stopRole j (removeStop stops index).length = stopRole j stops.length ∧
      stopRole j (updateStop stops index lat lon name).length
        = stopRole j stops.length) := by
  have hr : removeStop stops index = stops := by
    have h1 : index < 0 ∨ (stops.length : Int) ≤ index := by omega
    simp only [removeStop, if_pos h1]
  have hu : updateStop stops index lat lon name = stops := by
    simp only [updateStop, if_neg h]
  rw [hr, hu]
  exact ⟨rfl, rfl, fun j => ⟨rfl, rfl, rfl, rfl⟩⟩

/-- Witness for C9 at index `-2` on a one-stop sequence. -/
theorem invalid_index_ops_preserve_sequence_witness :
    (¬ ((0 : Int) ≤ -2 ∧ (-2 : Int) < (([⟨1, 2, "a"⟩] : List Stop).length : Int))) ∧
    ((removeStop [⟨1, 2, "a"⟩] (-2)).length = ([⟨1, 2, "a"⟩] : List Stop).length ∧
     (updateStop [⟨1, 2, "a"⟩] (-2) 7 8 "c").length
        = ([⟨1, 2, "a"⟩] : List Stop).length ∧
     (∀ j : Nat, (removeStop [⟨1, 2, "a"⟩] (-2))[j]? = ([⟨1, 2, "a"⟩] : List Stop)[j]? ∧
       (updateStop [⟨1, 2, "a"⟩] (-2) 7 8 "c")[j]? = ([⟨1, 2, "a"⟩] : List Stop)[j]? ∧
       stopRole j (removeStop [⟨1, 2, "a"⟩] (-2)).length
          = stopRole j ([⟨1, 2, "a"⟩] : List Stop).length ∧
       stopRole j (updateStop [⟨1, 2, "a"⟩] (-2) 7 8 "c").length
          = stopRole j ([⟨1, 2, "a"⟩] : List Stop).length)) :=
  ⟨by decide, invalid_index_ops_preserve_sequence [⟨1, 2, "a"⟩] (-2) 7 8 "c" (by decide)⟩

/-- JavaScript `Math.atan2(y, x)`, by its standard case analysis.  The engine
only ever reaches the `x > 0` branch (`x = sqrt(1 - a)` with `a ∈ [0, 1)`)
and the `(0, 0) ↦ 0` corner. -/
noncomputable def jsAtan2 (y x : ℝ) : ℝ :=
  if 0 < x then Real.arctan (y / x)
  else if x < 0 then
    (if 0 ≤ y then Real.arctan (y / x) + Real.pi else Real.arctan (y / x) - Real.pi)
  else
    (if 0 < y then Real.pi / 2 else if y < 0 then -(Real.pi / 2) else 0)

/-- The local `dLat = (lat2 - lat1) * Math.PI / 180` of `haversineDistance`. -/
noncomputable def havDLat (lat1 lat2 : ℝ) : ℝ :=
  (lat2 - lat1) * Real.pi / 180

/-- The local `dLon = (lon2 - lon1) * Math.PI / 180` of `haversineDistance`. -/
noncomputable def havDLon (lon1 lon2 : ℝ) : ℝ :=
  (lon2 - lon1) * Real.pi / 180

/-- The local
`a = sin(dLat/2)*sin(dLat/2) + cos(lat1*PI/180)*cos(lat2*PI/180)*sin(dLon/2)*sin(dLon/2)`
of `haversineDistance`. -/
noncomputable def havA (lat1 lon1 lat2 lon2 : ℝ) : ℝ :=
  Real.sin (havDLat lat1 lat2 / 2) * Real.sin (havDLat lat1 lat2 / 2) +
    Real.cos (lat1 * Real.pi / 180) * Real.cos (lat2 * Real.pi / 180) *
      Real.sin (havDLon lon1 lon2 / 2) * Real.sin (havDLon lon1 lon2 / 2)

/-- `haversineDistance(lat1, lon1, lat2, lon2)`: Earth radius `R = 6371` km,
`c = 2 * atan2(sqrt(a), sqrt(1 - a))`, result `R * c`. -/
noncomputable def haversineDistance (lat1 lon1 lat2 lon2 : ℝ) : ℝ :=
  6371 * (2 * jsAtan2 (Real.sqrt (havA lat1 lon1 lat2 lon2))
    (Real.sqrt (1 - havA lat1 lon1 lat2 lon2)))

theorem havA_symm (lat1 lon1 lat2 lon2 : ℝ) :
    havA lat2 lon2 lat1 lon1 = havA lat1 lon1 lat2 lon2 := by
  unfold havA havDLat havDLon
  rw [show (lat1 - lat2) * Real.pi / 180 / 2
        = -((lat2 - lat1) * Real.pi / 180 / 2) by ring,
      show (lon1 - lon2) * Real.pi / 180 / 2
        = -((lon2 - lon1) * Real.pi / 180 / 2) by ring,
      Real.sin_neg, Real.sin_neg]
  ring

theorem havA_self (lat lon : ℝ) : havA lat lon lat lon = 0 := by
  unfold havA havDLat havDLon
  simp

/-- Claim C8: the haversine distance is symmetric in its two coordinates,
and the distance from any coordinate to itself is zero. -/
theorem haversineDistance_symm_and_self_zero :
    (∀ lat1 lon1 lat2 lon2 : ℝ,
      haversineDistance lat1 lon1 lat2 lon2 = haversineDistance lat2 lon2 lat1 lon1) ∧
    (∀ lat lon : ℝ, haversineDistance lat lon lat lon = 0) := by
  constructor
  · intro lat1 lon1 lat2 lon2
    unfold haversineDistance
    rw [havA_symm]
  · intro lat lon
    unfold haversineDistance
    rw [havA_self]
    simp [jsAtan2]

/-- JavaScript `Math.round`: round half toward positive infinity. -/
def jsRound (q : ℚ) : Int :=
  ⌊q + 1 / 2⌋

/-- `getIntermediatePoints(from, to, numPoints)`: for `i` in `1..numPoints`,
the fraction is `i / (numPoints + 1)` and the point blends latitude and
longitude linearly, named `En Route (<rounded percent>%)`. -/
def getIntermediatePoints (a b : Stop) (numPoints : Nat) : List Stop :=
  (List.range numPoints).map (fun (j : Nat) =>
    let fraction : ℚ := ((j : ℚ) + 1) / ((numPoints : ℚ) + 1)
    { lat := a.lat + (b.lat - a.lat) * fraction
      lon := a.lon + (b.lon - a.lon) * fraction
      name := "En Route (" ++ toString (jsRound (fraction * 100)) ++ "%)" })

/-- The `searchPoints` built in `explorePlaces` when the route is non-empty:
all stops, followed by `pointsPerSegment` intermediate points for each
consecutive pair of stops (the source fixes `pointsPerSegment = 3`). -/
def searchPoints (stops : List Stop) (pointsPerSegment : Nat) : List Stop :=
  stops ++
    ((stops.zip stops.tail).map
      (fun p => getIntermediatePoints p.1 p.2 pointsPerSegment)).flatten

/-- Claim C5: with `N ≥ 2` stops and `pointsPerSegment = k`, the sampler
returns exactly `N + k*(N-1)` coordinates — every stop plus, for each
consecutive pair, `k` points blended linearly at fraction `(j+1)/(k+1)`
for `j < k` — and with two stops and `k = 3` it returns exactly the five
coordinates: both stops plus the three blends at fractions `1/4`, `1/2`,
`3/4`. -/
theorem searchPoints_count_and_fractions
    (stops : List Stop) (k : Nat) (h : 2 ≤ stops.length) :
    (searchPoints stops k).length = stops.length + k * (stops.length - 1) ∧
    (∀ (a b : Stop) (j : Nat), j < k →
      ((getIntermediatePoints a b k).map (fun s => (s.lat, s.lon)))[j]?
        = some (a.lat + (b.lat - a.lat) * (((j : ℚ) + 1) / ((k : ℚ) + 1)),
            a.lon + (b.lon - a.lon) * (((j : ℚ) + 1) / ((k : ℚ) + 1)))) ∧
    (∀ a b : Stop,
      (searchPoints [a, b] 3).map (fun s => (s.lat, s.lon)) =
        [(a.lat, a.lon), (b.lat, b.lon),
         (a.lat + (b.lat - a.lat) * (1 / 4), a.lon + (b.lon - a.lon) * (1 / 4)),
         (a.lat + (b.lat - a.lat) * (1 / 2), a.lon + (b.lon - a.lon) * (1 / 2)),
         (a.lat + (b.lat - a.lat) * (3 / 4), a.lon + (b.lon - a.lon) * (3 / 4))]) := by
  refine ⟨?_, ?_, ?_⟩
  · simp only [searchPoints, List.length_append, List.length_flatten, List.map_map]
    have hlen : ∀ p : Stop × Stop, (getIntermediatePoints p.1 p.2 k).length = k := by
      intro p
      unfold getIntermediatePoints
      rw [List.length_map, List.length_range]
    have h1 : (List.map (List.length ∘ fun p : Stop × Stop =>
        getIntermediatePoints p.1 p.2 k) (stops.zip stops.tail)).sum
        = (stops.zip stops.tail).length * k := by
      rw [show (List.length ∘ fun p : Stop × Stop =>
            getIntermediatePoints p.1 p.2 k) = fun _ => k from funext fun p => hlen p]
      rw [List.map_const', List.sum_replicate, smul_eq_mul]
    rw [h1, List.length_zip, List.length_tail]
    have h2 : min stops.length (stops.length - 1) = stops.length - 1 :=
      Nat.min_eq_right (Nat.sub_le _ _)
    rw [h2, Nat.mul_comm]
  · intro a b j hj
    unfold getIntermediatePoints
    rw [List.map_map, List.getElem?_map, List.getElem?_range hj, Option.map_some']
    rfl
  · intro a b
    simp only [searchPoints, getIntermediatePoints, List.zip, List.tail,
      show List.range 3 = [0, 1, 2] from rfl, List.zipWith, List.map,
      List.flatten, List.map_append, List.append_nil, List.cons_append,
      List.nil_append]
    norm_num

/-- Witness for C5 on a concrete two-stop route with `k = 3`. -/
theorem searchPoints_count_and_fractions_witness :
    2 ≤ ([⟨0, 0, "a"⟩, ⟨1, 1, "b"⟩] : List Stop).length ∧
    ((searchPoints [⟨0, 0, "a"⟩, ⟨1, 1, "b"⟩] 3).length
        = ([⟨0, 0, "a"⟩, ⟨1, 1, "b"⟩] : List Stop).length
          + 3 * (([⟨0, 0, "a"⟩, ⟨1, 1, "b"⟩] : List Stop).length - 1) ∧
     (∀ (a b : Stop) (j : Nat), j < 3 →
      ((getIntermediatePoints a b 3).map (fun s => (s.lat, s.lon)))[j]?
        = some (a.lat + (b.lat - a.lat) * (((j : ℚ) + 1) / ((3 : ℚ) + 1)),
            a.lon + (b.lon - a.lon) * (((j : ℚ) + 1) / ((3 : ℚ) + 1)))) ∧
     (∀ a b : Stop,
      (searchPoints [a, b] 3).map (fun s => (s.lat, s.lon)) =
        [(a.lat, a.lon), (b.lat, b.lon),
         (a.lat + (b.lat - a.lat) * (1 / 4), a.lon + (b.lon - a.lon) * (1 / 4)),
         (a.lat + (b.lat - a.lat) * (1 / 2), a.lon + (b.lon - a.lon) * (1 / 2)),
         (a.lat + (b.lat - a.lat) * (3 / 4), a.lon + (b.lon - a.lon) * (3 / 4))])) :=
  ⟨by decide,
   searchPoints_count_and_fractions [⟨0, 0, "a"⟩, ⟨1, 1, "b"⟩] 3 (by decide)⟩

/-- A POI marker as read by the budget filter: the ingested record data
(budget level, category, position) plus the presentation-side opacity the
filter toggles.  `budget` is `Option Nat` because `marker.options.budget`
may be absent. -/
structure Marker where
  budget : Option Nat
  category : String
  lat : ℚ
  lon : ℚ
  opacity : ℚ
  deriving DecidableEq, Repr

/-- The read `marker.options.budget || 2`: both an absent budget and the
falsy value `0` fall back to `2`. -/
def jsBudgetOrDefault : Option Nat → Nat
  | none => 2
  | some v => if v = 0 then 2 else v

/-- `filterPOIsByBudget`: for each marker, compare its (defaulted) budget
level with the selected maximum and set opacity `1` when visible, `0.2`
otherwise.  The marker list itself is only traversed, never altered. -/
def filterPOIsByBudget (maxLevel : Nat) (pois : List Marker) : List Marker :=
  pois.map (fun m =>
    if jsBudgetOrDefault m.budget ≤ maxLevel then { m with opacity := 1 }
    else { m with opacity := 1 / 5 })

/-- The catalog data of a marker: everything except the presentation-side
opacity. -/
def Marker.record (m : Marker) : Option Nat × String × ℚ × ℚ :=
  (m.budget, m.category, m.lat, m.lon)

/-- A catalog marker carrying budget level `b`, used for the concrete
`[1,2,3,4]` scenario. -/
def mkLevelMarker (b : Nat) : Marker :=
  ⟨some b, "food", 0, 0, 1⟩

/-- The ingestion budget assignment `Math.ceil(Math.random() * 4)` of
`createPOIMarker`, as a function of the random draw `r ∈ [0,1)`. -/
def assignBudget (r : ℚ) : Int :=
  ⌈r * 4⌉

/-- Claim C6: for every catalog whose records carry budget levels in `1..4`
and every `maxLevel`, the budget filter keeps the marker list the same
length and with identical record data in the same order (no mutation), and
marks exactly the records with `budgetLevel ≤ maxLevel` visible; on the
concrete levels `[1,2,3,4]` with `maxLevel = 2`, exactly the records with
levels `1` and `2` are selected. -/
theorem filterPOIsByBudget_visible_iff
    (pois : List Marker) (maxLevel : Nat)
    (hb : ∀ m ∈ pois, ∃ b, m.budget = some b ∧ 1 ≤ b ∧ b ≤ 4) :
    (filterPOIsByBudget maxLevel pois).length = pois.length ∧
    (filterPOIsByBudget maxLevel pois).map Marker.record = pois.map Marker.record ∧
    (∀ (j : Nat) (m : Marker), pois[j]? = some m →
      ∃ b, m.budget = some b ∧
        (filterPOIsByBudget maxLevel pois)[j]?.map Marker.opacity
          = some (if b ≤ maxLevel then (1 : ℚ) else 1 / 5)) ∧
    ((filterPOIsByBudget 2 [mkLevelMarker 1, mkLevelMarker 2, mkLevelMarker 3,
        mkLevelMarker 4]).filter
          (fun m => decide (m.opacity = 1))).map Marker.budget
      = [some 1, some 2] := by
  refine ⟨by simp [filterPOIsByBudget], ?_, ?_, ?_⟩
  · unfold filterPOIsByBudget
    rw [List.map_map]
    refine List.map_congr_left fun m _ => ?_
    by_cases hle : jsBudgetOrDefault m.budget ≤ maxLevel <;>
      simp [hle, Marker.record]
  · intro j m hj
    obtain ⟨b, hbm, hb1, _⟩ := hb m (List.getElem?_mem hj)
    refine ⟨b, hbm, ?_⟩
    unfold filterPOIsByBudget
    rw [List.getElem?_map, hj]
    have hd : jsBudgetOrDefault m.budget = b := by
      rw [hbm]
      simp [jsBudgetOrDefault]
      omega
    by_cases hle : b ≤ maxLevel <;> simp [hd, hle]
  · norm_num [filterPOIsByBudget, mkLevelMarker, jsBudgetOrDefault, List.filter]

/-- Witness for C6 on the concrete catalog with levels `[1,2,3,4]` and
`maxLevel = 2`. -/
theorem filterPOIsByBudget_visible_iff_witness :
    (∀ m ∈ ([mkLevelMarker 1, mkLevelMarker 2, mkLevelMarker 3,
        mkLevelMarker 4] : List Marker),
      ∃ b, m.budget = some b ∧ 1 ≤ b ∧ b ≤ 4) ∧
    ((filterPOIsByBudget 2 [mkLevelMarker 1, mkLevelMarker 2, mkLevelMarker 3,
        mkLevelMarker 4]).length
        = ([mkLevelMarker 1, mkLevelMarker 2, mkLevelMarker 3,
            mkLevelMarker 4] : List Marker).length ∧
      (filterPOIsByBudget 2 [mkLevelMarker 1, mkLevelMarker 2, mkLevelMarker 3,
        mkLevelMarker 4]).map Marker.record
        = ([mkLevelMarker 1, mkLevelMarker 2, mkLevelMarker 3,
            mkLevelMarker 4] : List Marker).map Marker.record ∧
      (∀ (j : Nat) (m : Marker),
        ([mkLevelMarker 1, mkLevelMarker 2, mkLevelMarker 3,
          mkLevelMarker 4] : List Marker)[j]? = some m →
        ∃ b, m.budget = some b ∧
          (filterPOIsByBudget 2 [mkLevelMarker 1, mkLevelMarker 2, mkLevelMarker 3,
            mkLevelMarker 4])[j]?.map Marker.opacity
            = some (if b ≤ 2 then (1 : ℚ) else 1 / 5)) ∧
      ((filterPOIsByBudget 2 [mkLevelMarker 1, mkLevelMarker 2, mkLevelMarker 3,
          mkLevelMarker 4]).filter
            (fun m => decide (m.opacity = 1))).map Marker.budget
        = [some 1, some 2]) :=
  ⟨by
    intro m hm
    simp only [List.mem_cons, List.not_mem_nil, or_false] at hm
    rcases hm with rfl | rfl | rfl | rfl <;> exact ⟨_, rfl, by omega, by omega⟩,
   filterPOIsByBudget_visible_iff
     [mkLevelMarker 1, mkLevelMarker 2, mkLevelMarker 3, mkLevelMarker 4] 2
     (by
      intro m hm
      simp only [List.mem_cons, List.not_mem_nil, or_false] at hm
      rcases hm with rfl | rfl | rfl | rfl <;> exact ⟨_, rfl, by omega, by omega⟩)⟩

/-- Claim C10: a marker whose stored budget level is absent or zero is
treated as level `2` by the budget filter — it is marked visible exactly
when `2 ≤ maxLevel` — and the ingestion assignment `ceil(r * 4)` indeed
produces the out-of-range level `0` at the draw `r = 0`. -/
theorem absent_or_zero_budget_treated_as_moderate
    (pois : List Marker) (maxLevel : Nat) (j : Nat) (m : Marker)
    (hj : pois[j]? = some m)
    (hb : m.budget = none ∨ m.budget = some 0) :
    jsBudgetOrDefault m.budget = 2 ∧
    ((filterPOIsByBudget maxLevel pois)[j]?.map Marker.opacity
        = some (if 2 ≤ maxLevel then (1 : ℚ) else 1 / 5)) ∧
    assignBudget 0 = 0 := by
  have hd : jsBudgetOrDefault m.budget = 2 := by
    rcases hb with hb | hb <;> rw [hb] <;> simp [jsBudgetOrDefault]
  refine ⟨hd, ?_, by simp [assignBudget]⟩
  unfold filterPOIsByBudget
  rw [List.getElem?_map, hj]
  by_cases hle : (2 : Nat) ≤ maxLevel <;> simp [hd, hle]

/-- Witness for C10 on a one-marker catalog with an absent budget level and
`maxLevel = 1`. -/
theorem absent_or_zero_budget_treated_as_moderate_witness :
    (([(⟨none, "cafe", 0, 0, 1⟩ : Marker)] : List Marker)[0]?
        = some (⟨none, "cafe", 0, 0, 1⟩ : Marker)) ∧
    ((⟨none, "cafe", 0, 0, 1⟩ : Marker).budget = none ∨
      (⟨none, "cafe", 0, 0, 1⟩ : Marker).budget = some 0) ∧
    (jsBudgetOrDefault (⟨none, "cafe", 0, 0, 1⟩ : Marker).budget = 2 ∧
      ((filterPOIsByBudget 1 [(⟨none, "cafe", 0, 0, 1⟩ : Marker)])[0]?.map
          Marker.opacity = some (if 2 ≤ 1 then (1 : ℚ) else 1 / 5)) ∧
      assignBudget 0 = 0) :=
  ⟨by decide, by decide,
   absent_or_zero_budget_treated_as_moderate
     [(⟨none, "cafe", 0, 0, 1⟩ : Marker)] 1 0 (⟨none, "cafe", 0, 0, 1⟩ : Marker)
     (by decide) (by decide)⟩

/-- A POI entry as collected at the top of `generateItinerary` from the
marker list: `{ name, category, latlng }` (the icon is derived from the
category). -/
structure POI where
  name : String
  category : String
  lat : ℚ
  lon : ℚ
  deriving DecidableEq, Repr

/-- One entry of an itinerary day: the synthetic starting point added on
day 1, a POI of the day's chunk, or the synthetic final destination. -/
inductive Place where
  | startingPoint (name : String)
  | poiPlace (p : POI)
  | finalDestination (name : String)
  deriving DecidableEq, Repr

/-- Whether a place entry is the synthetic final-destination suffix. -/
def Place.isFinalDest : Place → Bool
  | .finalDestination _ => true
  | _ => false

/-- One rendered itinerary day: its day number and its ordered place
entries. -/
structure ItinDay where
  day : Nat
  places : List Place
  deriving DecidableEq, Repr

/-- The outcome of `generateItinerary`: either the distinguished
`No places found to add to itinerary` rendering, or a list of day blocks. -/
inductive ItinResult where
  | noPlaces
  | days (l : List ItinDay)
  deriving DecidableEq, Repr

/-- `Math.ceil(n / d)` on natural numbers, for `d ≥ 1`. -/
def jsCeilDiv (n d : Nat) : Nat :=
  (n + d - 1) / d

/-- The JavaScript `name || dflt` fallback: an empty string is falsy. -/
def jsNameOr (name dflt : String) : String :=
  if name = "" then dflt else name

/-- `state.route.stops[0].name || 'Start'`. -/
def startName (stops : List Stop) : String :=
  match stops with
  | [] => "Start"
  | s :: _ => jsNameOr s.name "Start"

/-- `state.route.stops[state.route.stops.length - 1].name || 'Destination'`. -/
def destName (stops : List Stop) : String :=
  match stops.getLast? with
  | none => "Destination"
  | some s => jsNameOr s.name "Destination"

/-- The POI chunks assigned to the days by the loop of `generateItinerary`:
for `day` in `1..tripDays`, `pois.slice((day-1)*poisPerDay, day*poisPerDay)`
with `poisPerDay = Math.ceil(pois.length / tripDays)`, skipping days whose
chunk is empty. -/
def dayChunks (pois : List POI) (tripDays : Nat) : List (List POI) :=
  let p := jsCeilDiv pois.length tripDays
  ((List.range tripDays).map (fun k => (pois.drop (k * p)).take p)).filter
    (fun c => c.length != 0)

/-- The body of the day loop of `generateItinerary` for loop index
`k = day - 1`: `continue` (`none`) when the day's chunk is empty, otherwise
the day block consisting of the starting point on day 1 when there are
stops, the chunk's POIs, and the final destination on day `tripDays` when
there is more than one stop. -/
def itineraryDayFor (stops : List Stop) (pois : List POI) (tripDays p k : Nat) :
    Option ItinDay :=
  let day := k + 1
  let dayPois := (pois.drop (k * p)).take p
  if dayPois.length = 0 then none
  else some
    { day := day
      places :=
        (if day = 1 ∧ 0 < stops.length
          then [Place.startingPoint (startName stops)] else [])
        ++ dayPois.map Place.poiPlace
        ++ (if day = tripDays ∧ 1 < stops.length
          then [Place.finalDestination (destName stops)] else []) }

/-- The list of day blocks produced by the day loop of `generateItinerary`. -/
def itineraryDays (stops : List Stop) (pois : List POI) (tripDays : Nat) :
    List ItinDay :=
  (List.range tripDays).filterMap
    (itineraryDayFor stops pois tripDays (jsCeilDiv pois.length tripDays))

/-- `generateItinerary`: with an empty POI list the function renders the
distinguished empty message and returns before building any day; otherwise
it produces the day blocks. -/
def generateItinerary (stops : List Stop) (pois : List POI) (tripDays : Nat) :
    ItinResult :=
  if pois.length = 0 then ItinResult.noPlaces
  else ItinResult.days (itineraryDays stops pois tripDays)

/-- Claim C7: with an empty catalog, `generateItinerary` yields the
explicit nothing-to-plan result, which is distinct from every day list —
in particular it is not an empty day list. -/
theorem plan_empty_catalog_nothing_to_plan (stops : List Stop) (tripDays : Nat) :
    generateItinerary stops [] tripDays = ItinResult.noPlaces ∧
    (∀ l : List ItinDay, ItinResult.noPlaces ≠ ItinResult.days l) :=
  ⟨rfl, fun _ h => ItinResult.noConfusion h⟩

theorem flatten_filter_ne_nil {α : Type} (L : List (List α)) :
    (L.filter (fun c => c.length != 0)).flatten = L.flatten := by
  induction L with
  | nil => rfl
  | cons c t ih =>
    by_cases hc : c.length = 0
    · have hnil : c = [] := List.eq_nil_of_length_eq_zero hc
      subst hnil
      simpa [List.filter_cons] using ih
    · simp [List.filter_cons, hc, ih]

theorem flatten_slices {α : Type} (l : List α) (p d : Nat) :
    ((List.range d).map (fun k => (l.drop (k * p)).take p)).flatten
      = l.take (d * p) := by
  induction d with
  | zero => simp
  | succ d ih =>
    rw [List.range_succ, List.map_append, List.flatten_append]
    simp only [List.map_cons, List.map_nil, List.flatten_cons, List.flatten_nil,
      List.append_nil]
    rw [ih, show (d + 1) * p = d * p + p by ring, List.take_add]

theorem le_mul_jsCeilDiv (n d : Nat) (h : 1 ≤ d) : n ≤ d * jsCeilDiv n d := by
  unfold jsCeilDiv
  have h1 := Nat.div_add_mod (n + d - 1) d
  have h2 : (n + d - 1) % d < d := Nat.mod_lt _ (by omega)
  omega

theorem filter_slices {α : Type} (l : List α) (p d : Nat) :
    ((List.range d).map (fun k => (l.drop (k * p)).take p)).filter
      (fun c => c.length != 0)
    = (List.range (min d (jsCeilDiv l.length p))).map
        (fun k => (l.drop (k * p)).take p) := by
  induction d with
  | zero => simp
  | succ d ih =>
    rw [List.range_succ, List.map_append, List.filter_append, ih]
    have hslice : ((l.drop (d * p)).take p).length = min p (l.length - d * p) := by
      rw [List.length_take, List.length_drop]
    by_cases hne : ((l.drop (d * p)).take p).length = 0
    · have hc : jsCeilDiv l.length p ≤ d := by
        rw [hslice] at hne
        unfold jsCeilDiv
        rcases Nat.eq_zero_or_pos p with hp | hp
        · subst hp; simp
        · have h2 : (l.length + p - 1) / p < d + 1 := by
            rw [Nat.div_lt_iff_lt_mul hp, Nat.succ_mul]
            omega
          omega
      have hmin : min (d + 1) (jsCeilDiv l.length p) = min d (jsCeilDiv l.length p) := by
        omega
      rw [hmin]
      simp [List.filter_cons, hne]
    · have hp : 0 < p := by
        rw [hslice] at hne; omega
      have hlt : d * p < l.length := by
        rw [hslice] at hne; omega
      have hdc : d < jsCeilDiv l.length p := by
        unfold jsCeilDiv
        have h2 : d + 1 ≤ (l.length + p - 1) / p ↔ (d + 1) * p ≤ l.length + p - 1 :=
          Nat.le_div_iff_mul_le hp
        rw [Nat.succ_mul] at h2
        omega
      have hmin1 : min (d + 1) (jsCeilDiv l.length p) = d + 1 := by omega
      have hmin2 : min d (jsCeilDiv l.length p) = d := by omega
      rw [hmin1, hmin2, List.range_succ, List.map_append]
      simp only [List.map_cons, List.map_nil, List.filter_cons, List.filter_nil]
      rw [if_pos]
      simpa using hne

/-- Claim C4: for every catalog and every trip length in `[1, 30]`, the day
loop partitions the record list in ingestion order into contiguous chunks:
the chunk at output position `k` is exactly the slice
`pois.slice(k*poisPerDay, (k+1)*poisPerDay)` with
`poisPerDay = ceil(n / tripDays)` (so every chunk but the last has exactly
`poisPerDay` records, the last at most that many), only empty trailing
chunks are dropped, and the chunks concatenate back to the whole record
list; any catalog of `7` records with `tripDays = 3` is chunked into
sizes `[3, 3, 1]`. -/
theorem plan_partitions_catalog
    (pois : List POI) (tripDays : Nat) (h1 : 1 ≤ tripDays) (h30 : tripDays ≤ 30) :
    (dayChunks pois tripDays).flatten = pois ∧
    (∀ k : Nat, k < (dayChunks pois tripDays).length →
      (dayChunks pois tripDays)[k]?
        = some ((pois.drop (k * jsCeilDiv pois.length tripDays)).take
            (jsCeilDiv pois.length tripDays))) ∧
    (∀ c ∈ dayChunks pois tripDays,
      c.length ≠ 0 ∧ c.length ≤ jsCeilDiv pois.length tripDays) ∧
    (∀ l : List POI, l.length = 7 → (dayChunks l 3).map List.length = [3, 3, 1]) := by
  refine ⟨?_, ?_, ?_, ?_⟩
  · unfold dayChunks
    rw [flatten_filter_ne_nil, flatten_slices]
    exact List.take_of_length_le (le_mul_jsCeilDiv _ _ h1)
  · intro k hk
    unfold dayChunks at hk ⊢
    rw [filter_slices] at hk ⊢
    rw [List.length_map, List.length_range] at hk
    rw [List.getElem?_map, List.getElem?_range hk, Option.map_some']
  · intro c hc
    unfold dayChunks at hc
    rw [List.mem_filter] at hc
    obtain ⟨hmem, hne⟩ := hc
    refine ⟨by simpa using hne, ?_⟩
    rw [List.mem_map] at hmem
    obtain ⟨k, _, rfl⟩ := hmem
    exact List.length_take_le _ _
  · intro l hl
    rcases l with _ | ⟨a, _ | ⟨b, _ | ⟨c, _ | ⟨d, _ | ⟨e, _ | ⟨f, _ | ⟨g, rest⟩⟩⟩⟩⟩⟩⟩ <;>
      simp only [List.length_cons, List.length_nil] at hl <;> try omega
    have hrest : rest = [] := List.eq_nil_of_length_eq_zero (by omega)
    subst hrest
    simp [dayChunks, jsCeilDiv, List.filter_cons, List.range_succ]

/-- Witness for C4 on a concrete catalog of 7 records with `tripDays = 3`. -/
theorem plan_partitions_catalog_witness :
    (1 ≤ 3 ∧ 3 ≤ 30) ∧
    ((dayChunks [⟨"a", "food", 0, 0⟩, ⟨"b", "food", 0, 0⟩, ⟨"c", "food", 0, 0⟩,
        ⟨"d", "food", 0, 0⟩, ⟨"e", "food", 0, 0⟩, ⟨"f", "food", 0, 0⟩,
        ⟨"g", "food", 0, 0⟩] 3).flatten
        = [⟨"a", "food", 0, 0⟩, ⟨"b", "food", 0, 0⟩, ⟨"c", "food", 0, 0⟩,
           ⟨"d", "food", 0, 0⟩, ⟨"e", "food", 0, 0⟩, ⟨"f", "food", 0, 0⟩,
           ⟨"g", "food", 0, 0⟩] ∧
      (∀ k : Nat, k < (dayChunks [⟨"a", "food", 0, 0⟩, ⟨"b", "food", 0, 0⟩,
          ⟨"c", "food", 0, 0⟩, ⟨"d", "food", 0, 0⟩, ⟨"e", "food", 0, 0⟩,
          ⟨"f", "food", 0, 0⟩, ⟨"g", "food", 0, 0⟩] 3).length →
        (dayChunks [⟨"a", "food", 0, 0⟩, ⟨"b", "food", 0, 0⟩,
          ⟨"c", "food", 0, 0⟩, ⟨"d", "food", 0, 0⟩, ⟨"e", "food", 0, 0⟩,
          ⟨"f", "food", 0, 0⟩, ⟨"g", "food", 0, 0⟩] 3)[k]?
          = some ((([⟨"a", "food", 0, 0⟩, ⟨"b", "food", 0, 0⟩,
              ⟨"c", "food", 0, 0⟩, ⟨"d", "food", 0, 0⟩, ⟨"e", "food", 0, 0⟩,
              ⟨"f", "food", 0, 0⟩, (⟨"g", "food", 0, 0⟩ : POI)] : List POI).drop
                (k * jsCeilDiv ([⟨"a", "food", 0, 0⟩, ⟨"b", "food", 0, 0⟩,
                  ⟨"c", "food", 0, 0⟩, ⟨"d", "food", 0, 0⟩, ⟨"e", "food", 0, 0⟩,
                  ⟨"f", "food", 0, 0⟩, (⟨"g", "food", 0, 0⟩ : POI)] : List POI).length
                  3)).take
              (jsCeilDiv ([⟨"a", "food", 0, 0⟩, ⟨"b", "food", 0, 0⟩,
                ⟨"c", "food", 0, 0⟩, ⟨"d", "food", 0, 0⟩, ⟨"e", "food", 0, 0⟩,
                ⟨"f", "food", 0, 0⟩, (⟨"g", "food", 0, 0⟩ : POI)] : List POI).length
                3))) ∧
      (∀ c ∈ dayChunks [⟨"a", "food", 0, 0⟩, ⟨"b", "food", 0, 0⟩,
          ⟨"c", "food", 0, 0⟩, ⟨"d", "food", 0, 0⟩, ⟨"e", "food", 0, 0⟩,
          ⟨"f", "food", 0, 0⟩, ⟨"g", "food", 0, 0⟩] 3,
        c.length ≠ 0 ∧
          c.length ≤ jsCeilDiv ([⟨"a", "food", 0, 0⟩, ⟨"b", "food", 0, 0⟩,
            ⟨"c", "food", 0, 0⟩, ⟨"d", "food", 0, 0⟩, ⟨"e", "food", 0, 0⟩,
            ⟨"f", "food", 0, 0⟩, (⟨"g", "food", 0, 0⟩ : POI)] : List POI).length 3) ∧
      (∀ l : List POI, l.length = 7 → (dayChunks l 3).map List.length = [3, 3, 1])) :=
  ⟨⟨by decide, by decide⟩,
   plan_partitions_catalog
     [⟨"a", "food", 0, 0⟩, ⟨"b", "food", 0, 0⟩, ⟨"c", "food", 0, 0⟩,
      ⟨"d", "food", 0, 0⟩, ⟨"e", "food", 0, 0⟩, ⟨"f", "food", 0, 0⟩,
      ⟨"g", "food", 0, 0⟩] 3 (by decide) (by decide)⟩

theorem jsCeilDiv_pos (n d : Nat) (hd : 1 ≤ d) (hn : 1 ≤ n) :
    1 ≤ jsCeilDiv n d := by
  unfold jsCeilDiv
  rw [Nat.le_div_iff_mul_le (by omega)]
  omega

/-- Concrete two-stop route used to exercise the itinerary builder. -/
def cexStops : List Stop :=
  [⟨1, 1, "o"⟩, ⟨2, 2, "dd"⟩]

/-- Concrete two-record catalog used to exercise the itinerary builder. -/
def cexPois : List POI :=
  [⟨"p1", "food", 3, 3⟩, ⟨"p2", "cafe", 4, 4⟩]

/-- Counterexample to claim C2: with the two-stop route `cexStops`, the
two-record catalog `cexPois` and `tripDays = 3`, the chunk of day 3 is
empty (`poisPerDay = 1`, so days 1 and 2 exhaust the catalog), the loop
`continue`s past day 3, and the final day present in the output — day 2 —
ends in a plain POI entry, not the END stop: the destination suffix is
silently dropped even though the stop sequence has more than one stop. -/
theorem plan_end_suffix_counterexample :
    1 < cexStops.length ∧
    generateItinerary cexStops cexPois 3
      = ItinResult.days
          [⟨1, [Place.startingPoint "o", Place.poiPlace ⟨"p1", "food", 3, 3⟩]⟩,
           ⟨2, [Place.poiPlace ⟨"p2", "cafe", 4, 4⟩]⟩] ∧
    ((itineraryDays cexStops cexPois 3).getLast?.map
        (fun x => x.places.getLast?.map Place.isFinalDest)) = some (some false) := by
  refine ⟨by decide, by decide, by decide⟩

/-- Claim C2 as amended: when the catalog is non-empty, the first output
day is day 1 and is prefixed with the START stop whenever the stop
sequence is non-empty; and, with more than one stop, the END stop is
appended exactly when the chunk of day `tripDays` is non-empty (that is,
when `(tripDays - 1) * poisPerDay < catalog size`) — it then ends the
final output day, which is day `tripDays`; when that chunk is empty, no
output day carries the END stop at all. -/
theorem plan_prefix_start_and_suffix_end
    (stops : List Stop) (pois : List POI) (tripDays : Nat)
    (hd : 1 ≤ tripDays) (hp : pois.length ≠ 0) :
    (0 < stops.length →
      (itineraryDays stops pois tripDays).head?.map
          (fun x => (x.day, x.places.head?))
        = some (1, some (Place.startingPoint (startName stops)))) ∧
    (1 < stops.length →
      (tripDays - 1) * jsCeilDiv pois.length tripDays < pois.length →
      (itineraryDays stops pois tripDays).getLast?.map
          (fun x => (x.day, x.places.getLast?))
        = some (tripDays, some (Place.finalDestination (destName stops)))) ∧
    (pois.length ≤ (tripDays - 1) * jsCeilDiv pois.length tripDays →
      ∀ x ∈ itineraryDays stops pois tripDays, ∀ pl ∈ x.places,
        pl.isFinalDest = false) := by
  have hp1 : 1 ≤ jsCeilDiv pois.length tripDays :=
    jsCeilDiv_pos _ _ hd (by omega)
  refine ⟨?_, ?_, ?_⟩
  · intro hs
    obtain ⟨d', rfl⟩ : ∃ d', tripDays = d' + 1 := ⟨tripDays - 1, by omega⟩
    unfold itineraryDays
    rw [List.range_succ_eq_map, List.filterMap_cons]
    have hne : ¬ ((pois.drop (0 * jsCeilDiv pois.length (d' + 1))).take
        (jsCeilDiv pois.length (d' + 1))).length = 0 := by
      rw [Nat.zero_mul, List.drop_zero, List.length_take]
      omega
    have hf0 : itineraryDayFor stops pois (d' + 1)
        (jsCeilDiv pois.length (d' + 1)) 0
        = some ⟨1, Place.startingPoint (startName stops) ::
            (((pois.drop (0 * jsCeilDiv pois.length (d' + 1))).take
                (jsCeilDiv pois.length (d' + 1))).map Place.poiPlace
              ++ (if 0 + 1 = d' + 1 ∧ 1 < stops.length
                then [Place.finalDestination (destName stops)] else []))⟩ := by
      unfold itineraryDayFor
      rw [if_neg hne, if_pos ⟨rfl, hs⟩]
      simp [List.cons_append, List.append_assoc]
    rw [hf0]
    rfl
  · intro hs hlt
    obtain ⟨d', rfl⟩ : ∃ d', tripDays = d' + 1 := ⟨tripDays - 1, by omega⟩
    unfold itineraryDays
    rw [List.range_succ, List.filterMap_append]
    have hd' : (d' + 1) - 1 = d' := by omega
    rw [hd'] at hlt
    have hne : ¬ ((pois.drop (d' * jsCeilDiv pois.length (d' + 1))).take
        (jsCeilDiv pois.length (d' + 1))).length = 0 := by
      rw [List.length_take, List.length_drop]
      omega
    have hfd : itineraryDayFor stops pois (d' + 1)
        (jsCeilDiv pois.length (d' + 1)) d'
        = some ⟨d' + 1,
            ((if d' + 1 = 1 ∧ 0 < stops.length
                then [Place.startingPoint (startName stops)] else [])
              ++ ((pois.drop (d' * jsCeilDiv pois.length (d' + 1))).take
                  (jsCeilDiv pois.length (d' + 1))).map Place.poiPlace)
            ++ [Place.finalDestination (destName stops)]⟩ := by
      unfold itineraryDayFor
      rw [if_neg hne,
        if_pos (⟨rfl, hs⟩ : d' + 1 = d' + 1 ∧ 1 < stops.length)]
    rw [List.filterMap_cons, hfd]
    simp only [List.filterMap_nil]
    rw [List.getLast?_concat, Option.map_some']
    simp [List.getLast?_concat]
  · intro hle x hx pl hpl
    unfold itineraryDays at hx
    rw [List.mem_filterMap] at hx
    obtain ⟨k, hk, hfk⟩ := hx
    rw [List.mem_range] at hk
    unfold itineraryDayFor at hfk
    by_cases hck : ((pois.drop (k * jsCeilDiv pois.length tripDays)).take
        (jsCeilDiv pois.length tripDays)).length = 0
    · rw [if_pos hck] at hfk
      exact absurd hfk (by simp)
    · rw [if_neg hck] at hfk
      have hkd : ¬ (k + 1 = tripDays ∧ 1 < stops.length) := by
        rintro ⟨heq, -⟩
        apply hck
        have hdrop : pois.drop (k * jsCeilDiv pois.length tripDays) = [] := by
          apply List.drop_eq_nil_of_le
          have : k = tripDays - 1 := by omega
          subst this
          exact hle
        rw [hdrop, List.take_nil]
        rfl
      rw [if_neg hkd, List.append_nil] at hfk
      injection hfk with hfk
      subst hfk
      simp only [List.mem_append] at hpl
      rcases hpl with hpl | hpl
      · by_cases hc1 : k + 1 = 1 ∧ 0 < stops.length
        · rw [if_pos hc1] at hpl
          simp only [List.mem_singleton] at hpl
          subst hpl
          rfl
        · rw [if_neg hc1] at hpl
          exact absurd hpl (List.not_mem_nil pl)
      · rw [List.mem_map] at hpl
        obtain ⟨q, -, rfl⟩ := hpl
        rfl

/-- Witness for the amended claim C2 at the concrete inputs of the
counterexample (`2` stops, `2` POIs, `tripDays = 3`). -/
theorem plan_prefix_start_and_suffix_end_witness :
    (1 ≤ 3 ∧ cexPois.length ≠ 0) ∧
    ((0 < cexStops.length →
      (itineraryDays cexStops cexPois 3).head?.map
          (fun x => (x.day, x.places.head?))
        = some (1, some (Place.startingPoint (startName cexStops)))) ∧
    (1 < cexStops.length →
      (3 - 1) * jsCeilDiv cexPois.length 3 < cexPois.length →
      (itineraryDays cexStops cexPois 3).getLast?.map
          (fun x => (x.day, x.places.getLast?))
        = some (3, some (Place.finalDestination (destName cexStops)))) ∧
    (cexPois.length ≤ (3 - 1) * jsCeilDiv cexPois.length 3 →
      ∀ x ∈ itineraryDays cexStops cexPois 3, ∀ pl ∈ x.places,
        pl.isFinalDest = false)) :=
  ⟨⟨by decide, by decide⟩,
   plan_prefix_start_and_suffix_end cexStops cexPois 3 (by decide) (by decide)⟩

end TripPlanner
